/-
Verification of the `hf_lora_loader` repository's cache/ensure logic.

The development shallowly embeds `src/hf_lora_loader/nodes.py`:

* Python strings are modelled as `List Char` (`Str`); `str.strip`, `str.lower`
  and single-character `str.replace` are modelled by `pyStrip`, `pyLower` and
  `pyReplaceChar`.
* The filesystem is an explicit state `FS`: an association list of files
  (path ↦ byte content) plus the set of directories created so far.  Paths are
  lists of segments (the model works with POSIX separators; `os.path.join`
  appends a segment, `os.path.normpath` is the identity on the segment lists
  used here, and `os.path.relpath target root` drops the `root` prefix, which
  matches the real function whenever `root` is a prefix of `target` — the only
  way `ensure_hf_lora_file` calls it for relative, `..`-free names).
* SHA-256 is kept abstract: every function that hashes takes a `hash` argument
  of type `Content → Str` standing for `hashlib.sha256(...).hexdigest()`.
* The injected downloader (`hf_hub_download` or a test double) is a function
  from the filesystem state and keyword arguments to a new state together with
  either the downloaded path or the message of a raised `HfHubHTTPError`.
* Python exceptions become the `PyError` sum; a call returns the final
  filesystem, the list of downloader invocations that happened, and either the
  returned relative path or the raised error.
-/
import Mathlib

namespace HfLora

/-- Python `str`, modelled as a list of characters. -/
abbrev Str := List Char

/-- File contents (`bytes`), modelled as a list of byte values. -/
abbrev Content := List Nat

/-- A filesystem path, as a list of POSIX segments. -/
abbrev FPath := List Str

/-- Python's `str.strip()` (leading and trailing whitespace removed).
Python strips a slightly larger Unicode whitespace class; the difference is
irrelevant to the repository, whose checks only meet ordinary blanks. -/
def pyStrip (s : Str) : Str :=
  ((s.dropWhile Char.isWhitespace).reverse.dropWhile Char.isWhitespace).reverse

/-- Python's `str.lower()` (ASCII-relevant part, which is all the hex digests
and tokens in the repository use). -/
def pyLower (s : Str) : Str := s.map Char.toLower

/-- Python's `str.replace(pattern, repl)` for a single-character pattern:
each occurrence of `c` is replaced by the string `r`. -/
def pyReplaceChar (s : Str) (c : Char) (r : Str) : Str :=
  match s with
  | [] => []
  | x :: xs => (if x = c then r else [x]) ++ pyReplaceChar xs c r

/-- Python truthiness of an optional string: `None` and `""` are falsy. -/
def optTruthy (s : Option Str) : Bool :=
  match s with
  | none => false
  | some v => v ≠ []

/-- Python's `a or b` on optional strings: `a` if truthy, else `b`. -/
def pyOr (a b : Option Str) : Option Str :=
  if optTruthy a then a else b

/-- Python's `(a or b)` where `b` is a plain string (used for
`save_as or filename`). -/
def pyOrDefault (a : Option Str) (b : Str) : Str :=
  match a with
  | none => b
  | some v => if v = [] then b else v

/-- The Python exceptions `ensure_hf_lora_file` and its helpers can raise.
`HuggingFaceDownloadError` is the repository's own class (`nodes.py` line 25);
checksum mismatches and blank arguments are raised as `ValueError`, missing
configuration as `RuntimeError`, unreadable files as `OSError`. -/
inductive PyError where
  | valueError (msg : Str)
  | runtimeError (msg : Str)
  | osError (msg : Str)
  | hfDownloadError (msg : Str)
deriving DecidableEq, Repr

/-- Filesystem state: stored files (first binding of a path wins on reads,
so writes prepend) and the set of directories created so far. -/
structure FS where
  files : List (FPath × Content)
  dirs : List FPath
deriving DecidableEq, Repr

/-- Look a path up in an association list of files. -/
def lookupFile (l : List (FPath × Content)) (p : FPath) : Option Content :=
  match l with
  | [] => none
  | (q, c) :: rest => if q = p then some c else lookupFile rest p

/-- Read a file's content, `none` if absent. -/
def FS.read (fs : FS) (p : FPath) : Option Content :=
  lookupFile fs.files p

/-- `os.path.exists`. -/
def FS.existsFile (fs : FS) (p : FPath) : Bool :=
  (fs.read p).isSome

/-- Write (create or overwrite) a file. -/
def FS.write (fs : FS) (p : FPath) (c : Content) : FS :=
  ⟨(p, c) :: fs.files, fs.dirs⟩

/-- `os.makedirs(p, exist_ok=True)`: records the (leaf) directory; a second
call with the same path is a no-op. -/
def FS.makedirs (fs : FS) (p : FPath) : FS :=
  if p ∈ fs.dirs then fs else ⟨fs.files, p :: fs.dirs⟩

/-- `shutil.copy2(src, dst)`: copies the content of `src` over `dst`;
raises `OSError` when the source cannot be read. -/
def FS.copy2 (fs : FS) (src dst : FPath) : Except PyError FS :=
  match fs.read src with
  | none => .error (.osError (String.toList "copy2: source file missing"))
  | some c => .ok (fs.write dst c)

/-- `HF_SUBDIR = "hf_lora_loader"` (`nodes.py` line 22). -/
def HF_SUBDIR : Str := String.toList "hf_lora_loader"

/-- `_sanitize_repo_id` (`nodes.py` lines 29–30):
`repo_id.replace("/", "__").replace(" ", "_")`. -/
def _sanitize_repo_id (repo_id : Str) : Str :=
  pyReplaceChar (pyReplaceChar repo_id '/' (String.toList "__")) ' ' (String.toList "_")

/-- `_default_token` (`nodes.py` lines 33–34):
`token or os.getenv("HF_TOKEN") or os.getenv("HUGGINGFACE_TOKEN") or None`.
The two environment variables are passed in explicitly (as `os.getenv` results,
`none` when unset). -/
def _default_token (token envHfToken envHuggingfaceToken : Option Str) : Option Str :=
  pyOr (pyOr (pyOr token envHfToken) envHuggingfaceToken) none

/-- The fallback branch of `_default_lora_root` (`nodes.py` lines 39–44):
missing `folder_paths` module or an empty configured list raise
`RuntimeError`; otherwise the first configured root is used. -/
def _default_lora_root_fallback (folderPathsLoras : Option (List FPath)) :
    Except PyError FPath :=
  match folderPathsLoras with
  | none => .error (.runtimeError
      (String.toList "folder_paths module is required when running inside ComfyUI."))
  | some [] => .error (.runtimeError
      (String.toList "No \x27loras\x27 directory configured in ComfyUI."))
  | some (r :: _) => .ok r

/-- `_default_lora_root` (`nodes.py` lines 37–44): an explicit `lora_root`
(truthy, i.e. non-empty) wins; otherwise the ComfyUI `folder_paths`
collaborator supplies the configured `loras` roots (`none` models the module
being absent, an empty list models no configured directory). -/
def _default_lora_root (folderPathsLoras : Option (List FPath)) (lora_root : Option FPath) :
    Except PyError FPath :=
  match lora_root with
  | some p =>
    if p = [] then _default_lora_root_fallback folderPathsLoras else .ok p
  | none => _default_lora_root_fallback folderPathsLoras

/-- `_checksum_matches` (`nodes.py` lines 47–52) over the filesystem state:
hash the file's content with the abstract SHA-256 `hash` and compare the
(lower-cased) hex digests; an unreadable file raises `OSError`. -/
def _checksum_matches (hash : Content → Str) (fs : FS) (path : FPath) (expected_sha256 : Str) :
    Except PyError Bool :=
  match fs.read path with
  | none => .error (.osError (String.toList "file cannot be read"))
  | some c => .ok (pyLower (hash c) = pyLower expected_sha256)

/-- The keyword arguments `ensure_hf_lora_file` passes to the downloader
(`nodes.py` lines 99–109).  Fields that Python sets to `None` — which the
dict comprehension on line 109 then removes — are `Option`s holding `none`. -/
structure DownloadArgs where
  repo_id : Str
  filename : Str
  revision : Option Str
  token : Option Str
  local_dir : FPath
  local_dir_use_symlinks : Bool
  resume_download : Bool
  force_download : Option Bool
deriving DecidableEq, Repr

/-- The injected download transport: from the filesystem state and keyword
arguments to the new state and either the local path of the fetched file or
the message of a raised `HfHubHTTPError`. -/
abbrev Downloader := FS → DownloadArgs → FS × Except Str FPath

/-- The `download_kwargs` dictionary of `nodes.py` lines 100–109. -/
def mkDownloadKwargs (repo_id filename : Str) (revision token envHfToken envHuggingfaceToken : Option Str)
    (target_dir : FPath) (force_download resume_download : Bool) : DownloadArgs :=
  { repo_id := pyStrip repo_id
    filename := pyStrip filename
    revision := match revision with
      | none => none
      | some r => if r = [] then none else some (pyStrip r)
    token := _default_token token envHfToken envHuggingfaceToken
    local_dir := target_dir
    local_dir_use_symlinks := false
    resume_download := resume_download
    force_download := if force_download then some true else none }

/-- `target_dir = os.path.join(root, HF_SUBDIR, repo_slug)` (`nodes.py` line 88). -/
def targetDirOf (root : FPath) (repo_id : Str) : FPath :=
  root ++ [HF_SUBDIR, _sanitize_repo_id (pyStrip repo_id)]

/-- `target_path = os.path.join(target_dir, final_name)` (`nodes.py` line 90). -/
def targetPathOf (root : FPath) (repo_id : Str) (final_name : Str) : FPath :=
  targetDirOf root repo_id ++ [final_name]

/-- `expected_sha256.lower().strip() if expected_sha256 else ""`
(`nodes.py` line 92). -/
def normExpected (expected_sha256 : Option Str) : Str :=
  match expected_sha256 with
  | none => []
  | some e => if e = [] then [] else pyStrip (pyLower e)

/-- The `needs_download` computation of `nodes.py` lines 94–96:
`force_download or not exists`, then set to `True` when an expected checksum
was given, the file exists and its checksum does not match.  (The checksum
probe is guarded by `os.path.exists`, so in this model the file is always
readable there; the unreachable unreadable branch yields `false`.) -/
def needs_download_calc (hash : Content → Str) (fs : FS) (target_path : FPath)
    (force_download : Bool) (expected_sha256 : Str) : Bool :=
  (force_download || !(fs.existsFile target_path)) ||
    (expected_sha256 ≠ [] && fs.existsFile target_path &&
      (match _checksum_matches hash fs target_path expected_sha256 with
        | .ok b => !b
        | .error _ => false))

/-- Join path segments with `/` (how the POSIX paths built by
`ensure_hf_lora_file` print). -/
def joinPath (p : FPath) : Str :=
  match p with
  | [] => []
  | [s] => s
  | s :: rest => s ++ '/' :: joinPath rest

/-- `os.path.relpath(target, root)` for the calls the function makes, where
`root` is a prefix of `target`: drop the prefix. -/
def os_relpath (target root : FPath) : FPath :=
  target.drop root.length

/-- `os.path.relpath(target_path, root).replace("\\", "/")`
(`nodes.py` line 123). -/
def relative_path (root target_path : FPath) : Str :=
  pyReplaceChar (joinPath (os_relpath target_path root)) '\\' (String.toList "/")

/-- `"A Hugging Face repo_id is required."` (`nodes.py` line 77). -/
def msgRepoRequired : Str := String.toList "A Hugging Face repo_id is required."

/-- `"A filename inside the repository is required."` (`nodes.py` line 79). -/
def msgFilenameRequired : Str :=
  String.toList "A filename inside the repository is required."

/-- The `HuggingFaceDownloadError` message of `nodes.py` line 114:
`f"Failed to download {filename} from {repo_id}: {exc}"`. -/
def msgDownloadFailed (filename repo_id exc : Str) : Str :=
  String.toList "Failed to download " ++ filename ++ String.toList " from " ++
    repo_id ++ String.toList ": " ++ exc

/-- The checksum-mismatch `ValueError` message of `nodes.py` lines 119–121. -/
def msgChecksumMismatch : Str :=
  String.toList
    "Downloaded file checksum mismatch. Please verify \x27expected_sha256\x27 or disable the check."

/-- `ensure_hf_lora_file` (`nodes.py` lines 56–124).  Parameters:

* `hash` — the abstract SHA-256 hex-digest function used by `_checksum_matches`;
* `folderPathsLoras` — `folder_paths.get_folder_paths("loras")` (`none` when
  the module is unavailable);
* `envHfToken`, `envHuggingfaceToken` — `os.getenv("HF_TOKEN")` and
  `os.getenv("HUGGINGFACE_TOKEN")`;
* the remaining parameters mirror the Python signature; `downloader` is the
  injected transport (always present in this model — the repository imports
  `hf_hub_download` unconditionally, so the `downloader is None` branch on
  line 83 is unreachable);
* `fs` — the filesystem state before the call.

The result is the filesystem after the call, the list of downloader
invocations the call made (in order), and either the returned relative path or
the raised error — Python exceptions leave the side effects made so far in
place, and so does this model. -/
def ensure_hf_lora_file (hash : Content → Str) (folderPathsLoras : Option (List FPath))
    (envHfToken envHuggingfaceToken : Option Str)
    (repo_id filename : Str) (revision save_as token : Option Str)
    (force_download resume_download : Bool) (expected_sha256 : Option Str)
    (lora_root : Option FPath) (downloader : Downloader) (fs : FS) :
    FS × List DownloadArgs × Except PyError Str :=
  if pyStrip repo_id = [] then
    (fs, [], .error (.valueError msgRepoRequired))
  else if pyStrip filename = [] then
    (fs, [], .error (.valueError msgFilenameRequired))
  else
    match _default_lora_root folderPathsLoras lora_root with
    | .error e => (fs, [], .error e)
    | .ok root =>
      let final_name := pyStrip (pyOrDefault save_as filename)
      let target_dir := targetDirOf root repo_id
      let fs1 := fs.makedirs target_dir
      let target_path := targetPathOf root repo_id final_name
      let expected := normExpected expected_sha256
      if needs_download_calc hash fs1 target_path force_download expected then
        let kwargs := mkDownloadKwargs repo_id filename revision token envHfToken
          envHuggingfaceToken target_dir force_download resume_download
        match downloader fs1 kwargs with
        | (fs2, .error exc) =>
          (fs2, [kwargs], .error (.hfDownloadError (msgDownloadFailed filename repo_id exc)))
        | (fs2, .ok downloaded_path) =>
          match (if downloaded_path ≠ target_path then fs2.copy2 downloaded_path target_path
                 else .ok fs2) with
          | .error e => (fs2, [kwargs], .error e)
          | .ok fs3 =>
            if expected ≠ [] then
              match _checksum_matches hash fs3 target_path expected with
              | .error e => (fs3, [kwargs], .error e)
              | .ok true => (fs3, [kwargs], .ok (relative_path root target_path))
              | .ok false => (fs3, [kwargs], .error (.valueError msgChecksumMismatch))
            else
              (fs3, [kwargs], .ok (relative_path root target_path))
      else
        (fs1, [], .ok (relative_path root target_path))

/-! ### Spec-side definitions (for refinement comparisons) -/

/-- The relative path the spec promises:
`hf_lora_loader/<sanitized repo_id>/<filename>` with forward-slash
separators. -/
def spec_relative_path (repo_id final_name : Str) : Str :=
  HF_SUBDIR ++ '/' :: (_sanitize_repo_id (pyStrip repo_id) ++ '/' :: final_name)

/-- The sanitizer as the spec's contract sentence literally words it:
"replacing each `/` and space with `_`" — each of the two characters becomes a
single underscore (separators first, then spaces). -/
def sanitize_per_spec_wording (repo_id : Str) : Str :=
  pyReplaceChar (pyReplaceChar repo_id '/' (String.toList "_")) ' ' (String.toList "_")

/-- A single left-to-right pass over the characters, sending `/` to `__`,
a space to `_`, and any other character to itself — the amended description of
`_sanitize_repo_id`. -/
def sanitize_single_pass (repo_id : Str) : Str :=
  match repo_id with
  | [] => []
  | c :: rest =>
    (if c = '/' then String.toList "__" else if c = ' ' then String.toList "_" else [c]) ++
      sanitize_single_pass rest

/-! ### A concrete scenario (the spec's test fixture), used by witnesses -/

/-- The `tmp` cache root of the spec's concrete scenario. -/
def demoRoot : FPath := [String.toList "tmp"]

/-- `repo_id = "author/repo"`. -/
def demoRepo : Str := String.toList "author/repo"

/-- `filename = "model.safetensors"`. -/
def demoFile : Str := String.toList "model.safetensors"

/-- The bytes of `b"file-bytes"`. -/
def demoBytes : Content := [102, 105, 108, 101, 45, 98, 121, 116, 101, 115]

/-- The mock downloader of the repository's tests: writes the fixed content at
`local_dir/<filename>` and returns that path. -/
def demoDownloader : Downloader := fun fs a =>
  (fs.write (a.local_dir ++ [a.filename]) demoBytes, .ok (a.local_dir ++ [a.filename]))

/-- The target directory of the scenario. -/
def demoDir : FPath := targetDirOf demoRoot demoRepo

/-- The target path of the scenario. -/
def demoTarget : FPath := targetPathOf demoRoot demoRepo (pyStrip demoFile)

/-- The filesystem after the scenario's first (downloading) call. -/
def demoFS1 : FS := (FS.makedirs ⟨[], []⟩ demoDir).write demoTarget demoBytes

/-- The keyword arguments of the scenario's downloader invocation. -/
def demoKwargs : DownloadArgs :=
  mkDownloadKwargs demoRepo demoFile none none none none demoDir false true

/-- The relative path the scenario returns. -/
def demoRel : Str := String.toList "hf_lora_loader/author__repo/model.safetensors"

/-! ### Helper lemmas -/

/-- Characters of `pyReplaceChar s c r` come from `s` or from `r`. -/
theorem mem_pyReplaceChar {x : Char} {s : Str} {c : Char} {r : Str}
    (h : x ∈ pyReplaceChar s c r) : x ∈ s ∨ x ∈ r := by
  induction s with
  | nil => simp [pyReplaceChar] at h
  | cons y ys ih =>
    simp only [pyReplaceChar, List.mem_append] at h
    rcases h with h | h
    · by_cases hy : y = c
      · simp [hy] at h
        exact Or.inr h
      · simp [hy] at h
        subst h
        exact Or.inl (List.mem_cons_self _ _)
    · rcases ih h with h' | h'
      · exact Or.inl (List.mem_cons_of_mem _ h')
      · exact Or.inr h'

/-- Replacing a character that does not occur in the replacement removes it. -/
theorem not_mem_pyReplaceChar {s : Str} {c : Char} {r : Str} (hc : c ∉ r) :
    c ∉ pyReplaceChar s c r := by
  induction s with
  | nil => simp [pyReplaceChar]
  | cons y ys ih =>
    simp only [pyReplaceChar, List.mem_append]
    rintro (h | h)
    · by_cases hy : y = c
      · simp [hy] at h
        exact hc h
      · simp [hy] at h
        exact hy h.symm
    · exact ih h

/-- Replacing a character that does not occur in the string is the identity. -/
theorem pyReplaceChar_eq_self {s : Str} {c : Char} {r : Str} (h : c ∉ s) :
    pyReplaceChar s c r = s := by
  induction s with
  | nil => rfl
  | cons y ys ih =>
    simp only [List.mem_cons, not_or] at h
    simp [pyReplaceChar, Ne.symm h.1, ih h.2]

/-- `pyStrip` only removes characters. -/
theorem mem_pyStrip {x : Char} {s : Str} (h : x ∈ pyStrip s) : x ∈ s := by
  unfold pyStrip at h
  rw [List.mem_reverse] at h
  have h1 := (List.dropWhile_sublist _).subset h
  rw [List.mem_reverse] at h1
  exact (List.dropWhile_sublist _).subset h1

/-- Reading a freshly written file yields the written content. -/
theorem FS.read_write (fs : FS) (p : FPath) (c : Content) :
    (fs.write p c).read p = some c := by
  simp [FS.write, FS.read, lookupFile]

/-- `makedirs` does not change the stored files. -/
theorem FS.read_makedirs (fs : FS) (d p : FPath) :
    (fs.makedirs d).read p = fs.read p := by
  unfold FS.makedirs
  split <;> rfl

/-- `makedirs` is a no-op when the directory is already recorded. -/
theorem FS.makedirs_mem {fs : FS} {d : FPath} (h : d ∈ fs.dirs) :
    fs.makedirs d = fs := by
  simp [FS.makedirs, h]

/-- `pyReplaceChar` distributes over append. -/
theorem pyReplaceChar_append (a b : Str) (c : Char) (r : Str) :
    pyReplaceChar (a ++ b) c r = pyReplaceChar a c r ++ pyReplaceChar b c r := by
  induction a with
  | nil => rfl
  | cons y ys ih => simp [pyReplaceChar, ih]

/-! ### Claims about the identity sanitizer -/

/-- C9: for every input repo identifier, the sanitized directory name contains
no `/` path separator and no space character, so it is a single safe path
segment. -/
theorem C9_sanitized_repo_id_safe_segment (repo_id : Str) :
    '/' ∉ _sanitize_repo_id repo_id ∧ ' ' ∉ _sanitize_repo_id repo_id := by
  unfold _sanitize_repo_id
  constructor
  · intro h
    rcases mem_pyReplaceChar h with h' | h'
    · exact not_mem_pyReplaceChar (by decide) h'
    · simp at h'
  · exact not_mem_pyReplaceChar (by decide)

/-- C4 (counterexample): the sanitizer does not replace each `/` with a single
`_` — on `"author/repo"` it produces `"author__repo"`, not the `"author_repo"`
the claim's wording prescribes. -/
theorem C4_counterexample :
    _sanitize_repo_id (String.toList "author/repo") ≠
      sanitize_per_spec_wording (String.toList "author/repo") := by
  decide

/-- `makedirs` does not change which files exist. -/
theorem FS.existsFile_makedirs (fs : FS) (d p : FPath) :
    (fs.makedirs d).existsFile p = fs.existsFile p := by
  simp [FS.existsFile, FS.read_makedirs]

/-- Sanitizing a stripped repo id introduces no backslash. -/
theorem backslash_not_mem_sanitize {repo_id : Str} (h : '\\' ∉ repo_id) :
    '\\' ∉ _sanitize_repo_id (pyStrip repo_id) := by
  intro hmem
  unfold _sanitize_repo_id at hmem
  rcases mem_pyReplaceChar hmem with h1 | h1
  · rcases mem_pyReplaceChar h1 with h2 | h2
    · exact h (mem_pyStrip h2)
    · exact absurd h2 (by decide)
  · exact absurd h1 (by decide)

/-- On backslash-free names, the path `ensure_hf_lora_file` returns is exactly
the `hf_lora_loader/<sanitized repo_id>/<final name>` of the spec. -/
theorem relative_path_eq_spec (root : FPath) (repo_id final_name : Str)
    (h1 : '\\' ∉ _sanitize_repo_id (pyStrip repo_id)) (h2 : '\\' ∉ final_name) :
    relative_path root (targetPathOf root repo_id final_name) =
      spec_relative_path repo_id final_name := by
  unfold relative_path targetPathOf targetDirOf os_relpath spec_relative_path
  rw [List.append_assoc, List.drop_left]
  have hj : joinPath [HF_SUBDIR, _sanitize_repo_id (pyStrip repo_id), final_name] =
      HF_SUBDIR ++ '/' :: (_sanitize_repo_id (pyStrip repo_id) ++ '/' :: final_name) := by
    simp [joinPath]
  rw [show ([HF_SUBDIR, _sanitize_repo_id (pyStrip repo_id)] ++ [final_name]) =
      [HF_SUBDIR, _sanitize_repo_id (pyStrip repo_id), final_name] from rfl, hj]
  apply pyReplaceChar_eq_self
  simp only [List.mem_append, List.mem_cons]
  rintro (hb | hb | hb | hb | hb)
  · exact absurd hb (by decide)
  · exact absurd hb (by decide)
  · exact h1 hb
  · exact absurd hb (by decide)
  · exact h2 hb

/-- C4 (amended): the identity sanitizer replaces each `/` with `__` (a double
underscore) and each space with `_` (separators first, then spaces — the same
as a single left-to-right pass); it is a pure, total function that raises no
errors. -/
theorem C4_sanitizer_replaces_slash_and_space (repo_id : Str) :
    _sanitize_repo_id repo_id = sanitize_single_pass repo_id := by
  induction repo_id with
  | nil => rfl
  | cons c rest ih =>
    unfold _sanitize_repo_id at ih ⊢
    simp only [pyReplaceChar, pyReplaceChar_append, sanitize_single_pass, ih]
    by_cases h1 : c = '/'
    · simp [h1, pyReplaceChar]
    · by_cases h2 : c = ' '
      · simp [h1, h2, pyReplaceChar]
      · simp [h1, h2, pyReplaceChar]

/-! ### Claims about token resolution -/

/-- C8: an explicitly provided non-empty token wins; otherwise `HF_TOKEN` and
then `HUGGINGFACE_TOKEN` are consulted in that order and the first non-empty
value wins; when none is non-empty, the resolved token is `none`. -/
theorem C8_token_resolution (token envHfToken envHuggingfaceToken : Option Str) :
    (optTruthy token = true →
      _default_token token envHfToken envHuggingfaceToken = token) ∧
    (optTruthy token = false → optTruthy envHfToken = true →
      _default_token token envHfToken envHuggingfaceToken = envHfToken) ∧
    (optTruthy token = false → optTruthy envHfToken = false →
      optTruthy envHuggingfaceToken = true →
      _default_token token envHfToken envHuggingfaceToken = envHuggingfaceToken) ∧
    (optTruthy token = false → optTruthy envHfToken = false →
      optTruthy envHuggingfaceToken = false →
      _default_token token envHfToken envHuggingfaceToken = none) := by
  refine ⟨?_, ?_, ?_, ?_⟩ <;> intros <;> simp_all [_default_token, pyOr]

/-- Witness for C8 at a concrete explicit token. -/
theorem C8_token_resolution_witness :
    optTruthy (some (String.toList "abc")) = true ∧
      _default_token (some (String.toList "abc")) none none =
        some (String.toList "abc") :=
  ⟨by decide, (C8_token_resolution (some (String.toList "abc")) none none).1 (by decide)⟩

/-! ### Claims about argument validation -/

/-- C7: when `repo_id` or `filename` is blank after trimming,
`ensure_hf_lora_file` raises the invalid-argument `ValueError` before any
directory is created, any file is written, or the downloader is invoked — the
returned state is exactly the input state and the invocation list is empty. -/
theorem C7_blank_arguments_rejected (hash : Content → Str)
    (folderPathsLoras : Option (List FPath)) (envHfToken envHuggingfaceToken : Option Str)
    (repo_id filename : Str) (revision save_as token : Option Str)
    (force_download resume_download : Bool) (expected_sha256 : Option Str)
    (lora_root : Option FPath) (downloader : Downloader) (fs : FS)
    (h : pyStrip repo_id = [] ∨ pyStrip filename = []) :
    ensure_hf_lora_file hash folderPathsLoras envHfToken envHuggingfaceToken
        repo_id filename revision save_as token force_download resume_download
        expected_sha256 lora_root downloader fs =
      (fs, [], .error (.valueError
        (if pyStrip repo_id = [] then msgRepoRequired else msgFilenameRequired))) := by
  by_cases hr : pyStrip repo_id = []
  · simp [ensure_hf_lora_file, hr]
  · rcases h with h | h
    · exact absurd h hr
    · simp [ensure_hf_lora_file, hr, h]

/-- Witness for C7 at a whitespace-only `repo_id`. -/
theorem C7_blank_arguments_rejected_witness :
    (pyStrip (String.toList "  ") = [] ∨ pyStrip (String.toList "f") = []) ∧
      ensure_hf_lora_file (fun _ => []) none none none
          (String.toList "  ") (String.toList "f") none none none false true none
          none (fun fs _ => (fs, .error [])) ⟨[], []⟩ =
        (⟨[], []⟩, [], .error (.valueError msgRepoRequired)) :=
  ⟨Or.inl (by decide),
    C7_blank_arguments_rejected (fun _ => []) none none none
      (String.toList "  ") (String.toList "f") none none none false true none
      none (fun fs _ => (fs, .error [])) ⟨[], []⟩ (Or.inl (by decide))⟩

/-! ### Claims about the ensure orchestrator -/

/-- C1: for a valid reference with no existing cache entry (and no forced
download or `save_as` override), `ensure_hf_lora_file` invokes the downloader
exactly once and returns `hf_lora_loader/<sanitized repo_id>/<filename>` with
forward-slash separators; the downloaded content sits at the target path. -/
theorem C1_fresh_download_once_returns_relpath (hash : Content → Str)
    (folderPathsLoras : Option (List FPath)) (envHfToken envHuggingfaceToken : Option Str)
    (repo_id filename : Str) (revision token : Option Str) (resume_download : Bool)
    (expected_sha256 : Option Str) (lora_root : Option FPath) (downloader : Downloader)
    (fs fs2 : FS) (c : Content) (root : FPath)
    (hr : pyStrip repo_id ≠ []) (hf : pyStrip filename ≠ [])
    (hroot : _default_lora_root folderPathsLoras lora_root = .ok root)
    (hmiss : fs.existsFile (targetPathOf root repo_id (pyStrip filename)) = false)
    (hdl : downloader (fs.makedirs (targetDirOf root repo_id))
        (mkDownloadKwargs repo_id filename revision token envHfToken envHuggingfaceToken
          (targetDirOf root repo_id) false resume_download) =
      (fs2, .ok (targetPathOf root repo_id (pyStrip filename))))
    (hwrote : fs2.read (targetPathOf root repo_id (pyStrip filename)) = some c)
    (hok : normExpected expected_sha256 = [] ∨
      pyLower (hash c) = pyLower (normExpected expected_sha256))
    (hnbr : '\\' ∉ repo_id) (hnbf : '\\' ∉ filename) :
    ensure_hf_lora_file hash folderPathsLoras envHfToken envHuggingfaceToken
        repo_id filename revision none token false resume_download expected_sha256
        lora_root downloader fs =
      (fs2,
       [mkDownloadKwargs repo_id filename revision token envHfToken envHuggingfaceToken
         (targetDirOf root repo_id) false resume_download],
       .ok (spec_relative_path repo_id (pyStrip filename))) := by
  have hrel : relative_path root (targetPathOf root repo_id (pyStrip filename)) =
      spec_relative_path repo_id (pyStrip filename) :=
    relative_path_eq_spec root repo_id (pyStrip filename)
      (backslash_not_mem_sanitize hnbr) (fun hb => hnbf (mem_pyStrip hb))
  have hneeds : needs_download_calc hash (fs.makedirs (targetDirOf root repo_id))
      (targetPathOf root repo_id (pyStrip filename)) false (normExpected expected_sha256)
      = true := by
    simp [needs_download_calc, FS.existsFile_makedirs, hmiss]
  simp only [ensure_hf_lora_file, if_neg hr, if_neg hf, hroot, pyOrDefault]
  rw [show pyStrip (match (none : Option Str) with
      | none => filename | some v => if v = [] then filename else v) =
    pyStrip filename from rfl]
  simp only [hneeds, if_true]
  rw [hdl]
  simp only [ne_eq, not_true_eq_false, if_false, ite_self]
  rcases hok with hexp | hmatch
  · simp [hexp, hrel]
  · by_cases hexp : normExpected expected_sha256 = []
    · simp [hexp, hrel]
    · simp [hexp, _checksum_matches, hwrote, hmatch, hrel]

/-- Witness for C1: the spec's concrete scenario — `repo_id = "author/repo"`,
`filename = "model.safetensors"`, `lora_root = tmp`, a mock downloader writing
the bytes of `b"file-bytes"` — returns
`"hf_lora_loader/author__repo/model.safetensors"` and stores those bytes at
the target path. -/
theorem C1_fresh_download_once_returns_relpath_witness :
    pyStrip (String.toList "author/repo") ≠ [] ∧
    ensure_hf_lora_file (fun _ => []) none none none
        (String.toList "author/repo") (String.toList "model.safetensors")
        none none none false true none (some [String.toList "tmp"])
        (fun fs a => (fs.write (a.local_dir ++ [a.filename])
            [102, 105, 108, 101, 45, 98, 121, 116, 101, 115],
          .ok (a.local_dir ++ [a.filename])))
        ⟨[], []⟩ =
      ((FS.makedirs ⟨[], []⟩
          (targetDirOf [String.toList "tmp"] (String.toList "author/repo"))).write
          (targetDirOf [String.toList "tmp"] (String.toList "author/repo") ++
            [pyStrip (String.toList "model.safetensors")])
          [102, 105, 108, 101, 45, 98, 121, 116, 101, 115],
       [mkDownloadKwargs (String.toList "author/repo") (String.toList "model.safetensors")
          none none none none
          (targetDirOf [String.toList "tmp"] (String.toList "author/repo")) false true],
       .ok (spec_relative_path (String.toList "author/repo")
          (pyStrip (String.toList "model.safetensors")))) ∧
    spec_relative_path (String.toList "author/repo")
        (pyStrip (String.toList "model.safetensors")) =
      String.toList "hf_lora_loader/author__repo/model.safetensors" :=
  ⟨by decide,
    C1_fresh_download_once_returns_relpath (fun _ => []) none none none
      (String.toList "author/repo") (String.toList "model.safetensors")
      none none true none (some [String.toList "tmp"])
      (fun fs a => (fs.write (a.local_dir ++ [a.filename])
          [102, 105, 108, 101, 45, 98, 121, 116, 101, 115],
        .ok (a.local_dir ++ [a.filename])))
      ⟨[], []⟩ _ [102, 105, 108, 101, 45, 98, 121, 116, 101, 115] [String.toList "tmp"]
      (by decide) (by decide) rfl (by decide) rfl (by decide) (Or.inl rfl)
      (by decide) (by decide),
   by decide⟩

/-- C3: the `needs_download` decision is true exactly when `force_download` is
set, or the target file does not exist, or an expected checksum was given and
the existing file's checksum does not match it; and whenever the decision is
false for the state and target `ensure_hf_lora_file` computes, the injected
downloader is never invoked. -/
theorem C3_needs_download_decision (hash : Content → Str)
    (folderPathsLoras : Option (List FPath)) (envHfToken envHuggingfaceToken : Option Str)
    (repo_id filename : Str) (revision save_as token : Option Str)
    (force_download resume_download : Bool) (expected_sha256 : Option Str)
    (lora_root : Option FPath) (downloader : Downloader) (fs : FS) (root : FPath)
    (hr : pyStrip repo_id ≠ []) (hf : pyStrip filename ≠ [])
    (hroot : _default_lora_root folderPathsLoras lora_root = .ok root) :
    (∀ (fs' : FS) (target : FPath) (expected : Str),
      needs_download_calc hash fs' target force_download expected = true ↔
        force_download = true ∨ fs'.read target = none ∨
          (expected ≠ [] ∧ ∃ c, fs'.read target = some c ∧
            pyLower (hash c) ≠ pyLower expected)) ∧
    (needs_download_calc hash (fs.makedirs (targetDirOf root repo_id))
        (targetPathOf root repo_id (pyStrip (pyOrDefault save_as filename)))
        force_download (normExpected expected_sha256) = false →
      (ensure_hf_lora_file hash folderPathsLoras envHfToken envHuggingfaceToken
          repo_id filename revision save_as token force_download resume_download
          expected_sha256 lora_root downloader fs).2.1 = []) := by
  constructor
  · intro fs' target expected
    cases hread : fs'.read target with
    | none =>
      simp [needs_download_calc, FS.existsFile, hread]
    | some c =>
      by_cases hexp : expected = [] <;>
        by_cases hm : pyLower (hash c) = pyLower expected <;>
          simp [needs_download_calc, FS.existsFile, hread, _checksum_matches, hexp, hm]
  · intro hneeds
    simp only [ensure_hf_lora_file, if_neg hr, if_neg hf, hroot, hneeds,
      Bool.false_eq_true, if_false]

/-- Witness for C3: a pre-existing cached file, no checksum and no forced
download make the decision false, and the call then performs zero downloader
invocations. -/
theorem C3_needs_download_decision_witness :
    pyStrip (String.toList "owner/model") ≠ [] ∧
    (ensure_hf_lora_file (fun _ => []) none none none
        (String.toList "owner/model") (String.toList "lora.safetensors")
        none none none false true none (some [String.toList "tmp"])
        (fun fs _ => (fs, .error []))
        ⟨[(targetPathOf [String.toList "tmp"] (String.toList "owner/model")
            (String.toList "lora.safetensors"), [99])], []⟩).2.1 = [] :=
  ⟨by decide,
    (C3_needs_download_decision (fun _ => []) none none none
      (String.toList "owner/model") (String.toList "lora.safetensors")
      none none none false true none (some [String.toList "tmp"])
      (fun fs _ => (fs, .error []))
      ⟨[(targetPathOf [String.toList "tmp"] (String.toList "owner/model")
          (String.toList "lora.safetensors"), [99])], []⟩
      [String.toList "tmp"] (by decide) (by decide) rfl).2 (by decide)⟩

/-- Every successful `ensure_hf_lora_file` call returns the relative path of
the computed target, whatever branch it took. -/
theorem ensure_ok_relpath (hash : Content → Str)
    (folderPathsLoras : Option (List FPath)) (envHfToken envHuggingfaceToken : Option Str)
    (repo_id filename : Str) (revision save_as token : Option Str)
    (force_download resume_download : Bool) (expected_sha256 : Option Str)
    (lora_root : Option FPath) (downloader : Downloader) (fs : FS) (root : FPath) (r : Str)
    (hr : pyStrip repo_id ≠ []) (hf : pyStrip filename ≠ [])
    (hroot : _default_lora_root folderPathsLoras lora_root = .ok root)
    (h : (ensure_hf_lora_file hash folderPathsLoras envHfToken envHuggingfaceToken
        repo_id filename revision save_as token force_download resume_download
        expected_sha256 lora_root downloader fs).2.2 = .ok r) :
    r = relative_path root
      (targetPathOf root repo_id (pyStrip (pyOrDefault save_as filename))) := by
  simp only [ensure_hf_lora_file, if_neg hr, if_neg hf, hroot] at h
  repeat split at h
  all_goals repeat split at h
  all_goals repeat split at h
  all_goals simp_all

/-- C5: once a matching file is cached by a successful call, repeating the
call with identical arguments and `force_download = false` returns the same
value, leaves the filesystem (hence the cached content) exactly as it was,
and performs zero downloader invocations. -/
theorem C5_second_call_idempotent (hash : Content → Str)
    (folderPathsLoras : Option (List FPath)) (envHfToken envHuggingfaceToken : Option Str)
    (repo_id filename : Str) (revision save_as token : Option Str)
    (resume_download : Bool) (expected_sha256 : Option Str)
    (lora_root : Option FPath) (downloader : Downloader) (fs fs1 : FS)
    (calls1 : List DownloadArgs) (r : Str) (c : Content) (root : FPath)
    (hr : pyStrip repo_id ≠ []) (hf : pyStrip filename ≠ [])
    (hroot : _default_lora_root folderPathsLoras lora_root = .ok root)
    (hfirst : ensure_hf_lora_file hash folderPathsLoras envHfToken envHuggingfaceToken
        repo_id filename revision save_as token false resume_download
        expected_sha256 lora_root downloader fs = (fs1, calls1, .ok r))
    (hdir : targetDirOf root repo_id ∈ fs1.dirs)
    (hcached : fs1.read
        (targetPathOf root repo_id (pyStrip (pyOrDefault save_as filename))) = some c)
    (hsum : normExpected expected_sha256 ≠ [] →
      pyLower (hash c) = pyLower (normExpected expected_sha256)) :
    ensure_hf_lora_file hash folderPathsLoras envHfToken envHuggingfaceToken
        repo_id filename revision save_as token false resume_download
        expected_sha256 lora_root downloader fs1 = (fs1, [], .ok r) := by
  have hrel : r = relative_path root
      (targetPathOf root repo_id (pyStrip (pyOrDefault save_as filename))) :=
    ensure_ok_relpath hash folderPathsLoras envHfToken envHuggingfaceToken
      repo_id filename revision save_as token false resume_download
      expected_sha256 lora_root downloader fs root r hr hf hroot (by rw [hfirst])
  have hneeds : needs_download_calc hash fs1
      (targetPathOf root repo_id (pyStrip (pyOrDefault save_as filename)))
      false (normExpected expected_sha256) = false := by
    by_cases hexp : normExpected expected_sha256 = []
    · simp [needs_download_calc, FS.existsFile, hcached, hexp]
    · simp [needs_download_calc, FS.existsFile, hcached, hexp, _checksum_matches,
        hsum hexp]
  simp only [ensure_hf_lora_file, if_neg hr, if_neg hf, hroot, FS.makedirs_mem hdir,
    hneeds, Bool.false_eq_true, if_false, hrel]

/-- C2: when an expected checksum is supplied and the existing cached file
fails the check, `ensure_hf_lora_file` performs exactly one re-download
attempt instead of failing immediately; the call succeeds if the re-downloaded
file matches and raises the terminal checksum-mismatch `ValueError` only if it
still mismatches. -/
theorem C2_cached_mismatch_single_redownload (hash : Content → Str)
    (folderPathsLoras : Option (List FPath)) (envHfToken envHuggingfaceToken : Option Str)
    (repo_id filename : Str) (revision save_as token : Option Str)
    (resume_download : Bool) (expected_sha256 : Option Str)
    (lora_root : Option FPath) (downloader : Downloader) (fs fs2 : FS)
    (c0 c1 : Content) (root : FPath)
    (hr : pyStrip repo_id ≠ []) (hf : pyStrip filename ≠ [])
    (hroot : _default_lora_root folderPathsLoras lora_root = .ok root)
    (hexp : normExpected expected_sha256 ≠ [])
    (hcached : fs.read
        (targetPathOf root repo_id (pyStrip (pyOrDefault save_as filename))) = some c0)
    (hmm0 : pyLower (hash c0) ≠ pyLower (normExpected expected_sha256))
    (hdl : downloader (fs.makedirs (targetDirOf root repo_id))
        (mkDownloadKwargs repo_id filename revision token envHfToken envHuggingfaceToken
          (targetDirOf root repo_id) false resume_download) =
      (fs2, .ok (targetPathOf root repo_id (pyStrip (pyOrDefault save_as filename)))))
    (hwrote : fs2.read
        (targetPathOf root repo_id (pyStrip (pyOrDefault save_as filename))) = some c1) :
    (ensure_hf_lora_file hash folderPathsLoras envHfToken envHuggingfaceToken
        repo_id filename revision save_as token false resume_download
        expected_sha256 lora_root downloader fs).2.1 =
      [mkDownloadKwargs repo_id filename revision token envHfToken envHuggingfaceToken
        (targetDirOf root repo_id) false resume_download] ∧
    (pyLower (hash c1) = pyLower (normExpected expected_sha256) →
      (ensure_hf_lora_file hash folderPathsLoras envHfToken envHuggingfaceToken
          repo_id filename revision save_as token false resume_download
          expected_sha256 lora_root downloader fs).2.2 =
        .ok (relative_path root
          (targetPathOf root repo_id (pyStrip (pyOrDefault save_as filename))))) ∧
    (pyLower (hash c1) ≠ pyLower (normExpected expected_sha256) →
      (ensure_hf_lora_file hash folderPathsLoras envHfToken envHuggingfaceToken
          repo_id filename revision save_as token false resume_download
          expected_sha256 lora_root downloader fs).2.2 =
        .error (.valueError msgChecksumMismatch)) := by
  have hneeds : needs_download_calc hash (fs.makedirs (targetDirOf root repo_id))
      (targetPathOf root repo_id (pyStrip (pyOrDefault save_as filename)))
      false (normExpected expected_sha256) = true := by
    simp [needs_download_calc, FS.existsFile, FS.read_makedirs, hcached, hexp,
      _checksum_matches, hmm0]
  have heval : ensure_hf_lora_file hash folderPathsLoras envHfToken envHuggingfaceToken
      repo_id filename revision save_as token false resume_download
      expected_sha256 lora_root downloader fs =
      (fs2,
       [mkDownloadKwargs repo_id filename revision token envHfToken envHuggingfaceToken
         (targetDirOf root repo_id) false resume_download],
       if pyLower (hash c1) = pyLower (normExpected expected_sha256) then
         .ok (relative_path root
           (targetPathOf root repo_id (pyStrip (pyOrDefault save_as filename))))
       else .error (.valueError msgChecksumMismatch)) := by
    simp only [ensure_hf_lora_file, if_neg hr, if_neg hf, hroot, hneeds, if_true]
    rw [hdl]
    simp only [ne_eq, not_true_eq_false, if_false, ite_self]
    by_cases hm : pyLower (hash c1) = pyLower (normExpected expected_sha256)
    · simp [hexp, _checksum_matches, hwrote, hm]
    · simp [hexp, _checksum_matches, hwrote, hm]
  refine ⟨by rw [heval], fun hm => by rw [heval]; simp [hm], fun hm => by rw [heval]; simp [hm]⟩

/-- Witness for C2: a cached file with the wrong digest plus a downloader that
writes matching content — the call performs exactly one re-download and then
succeeds. -/
theorem C2_cached_mismatch_single_redownload_witness :
    pyLower ((fun c => if c = demoBytes then String.toList "bb" else String.toList "aa") [0])
      ≠ pyLower (normExpected (some (String.toList "bb"))) ∧
    (ensure_hf_lora_file
        (fun c => if c = demoBytes then String.toList "bb" else String.toList "aa")
        none none none demoRepo demoFile none none none false true
        (some (String.toList "bb")) (some demoRoot) demoDownloader
        ⟨[(demoTarget, [0])], []⟩).2.1 = [demoKwargs] ∧
    (ensure_hf_lora_file
        (fun c => if c = demoBytes then String.toList "bb" else String.toList "aa")
        none none none demoRepo demoFile none none none false true
        (some (String.toList "bb")) (some demoRoot) demoDownloader
        ⟨[(demoTarget, [0])], []⟩).2.2 =
      .ok (relative_path demoRoot
        (targetPathOf demoRoot demoRepo (pyStrip (pyOrDefault none demoFile)))) :=
  ⟨by decide,
    (C2_cached_mismatch_single_redownload
      (fun c => if c = demoBytes then String.toList "bb" else String.toList "aa")
      none none none demoRepo demoFile none none none true
      (some (String.toList "bb")) (some demoRoot) demoDownloader
      ⟨[(demoTarget, [0])], []⟩ _ [0] demoBytes demoRoot
      (by decide) (by decide) rfl (by decide) (by decide) (by decide) rfl rfl).1,
    (C2_cached_mismatch_single_redownload
      (fun c => if c = demoBytes then String.toList "bb" else String.toList "aa")
      none none none demoRepo demoFile none none none true
      (some (String.toList "bb")) (some demoRoot) demoDownloader
      ⟨[(demoTarget, [0])], []⟩ _ [0] demoBytes demoRoot
      (by decide) (by decide) rfl (by decide) (by decide) (by decide) rfl rfl).2.1
      (by decide)⟩

/-- C6: a transport failure during the fetch raises the repository's
`HuggingFaceDownloadError`, wrapping the transport's message and naming the
repo and filename; a post-download checksum mismatch instead raises a
`ValueError` — a constructor distinct from `HuggingFaceDownloadError` — and the
mismatching file is never reported as success. -/
theorem C6_error_taxonomy (hash : Content → Str)
    (folderPathsLoras : Option (List FPath)) (envHfToken envHuggingfaceToken : Option Str)
    (repo_id filename : Str) (revision save_as token : Option Str)
    (force_download resume_download : Bool) (expected_sha256 : Option Str)
    (lora_root : Option FPath) (fs : FS) (root : FPath)
    (hr : pyStrip repo_id ≠ []) (hf : pyStrip filename ≠ [])
    (hroot : _default_lora_root folderPathsLoras lora_root = .ok root)
    (hmiss : fs.existsFile
        (targetPathOf root repo_id (pyStrip (pyOrDefault save_as filename))) = false) :
    (∀ (downloader : Downloader) (exc : Str) (fs2 : FS),
      downloader (fs.makedirs (targetDirOf root repo_id))
          (mkDownloadKwargs repo_id filename revision token envHfToken envHuggingfaceToken
            (targetDirOf root repo_id) force_download resume_download) =
        (fs2, .error exc) →
      ensure_hf_lora_file hash folderPathsLoras envHfToken envHuggingfaceToken
          repo_id filename revision save_as token force_download resume_download
          expected_sha256 lora_root downloader fs =
        (fs2,
         [mkDownloadKwargs repo_id filename revision token envHfToken envHuggingfaceToken
           (targetDirOf root repo_id) force_download resume_download],
         .error (.hfDownloadError (msgDownloadFailed filename repo_id exc)))) ∧
    (∀ (downloader : Downloader) (fs2 : FS) (c : Content),
      downloader (fs.makedirs (targetDirOf root repo_id))
          (mkDownloadKwargs repo_id filename revision token envHfToken envHuggingfaceToken
            (targetDirOf root repo_id) force_download resume_download) =
        (fs2, .ok (targetPathOf root repo_id (pyStrip (pyOrDefault save_as filename)))) →
      fs2.read (targetPathOf root repo_id (pyStrip (pyOrDefault save_as filename))) =
        some c →
      normExpected expected_sha256 ≠ [] →
      pyLower (hash c) ≠ pyLower (normExpected expected_sha256) →
      ensure_hf_lora_file hash folderPathsLoras envHfToken envHuggingfaceToken
          repo_id filename revision save_as token force_download resume_download
          expected_sha256 lora_root downloader fs =
        (fs2,
         [mkDownloadKwargs repo_id filename revision token envHfToken envHuggingfaceToken
           (targetDirOf root repo_id) force_download resume_download],
         .error (.valueError msgChecksumMismatch))) ∧
    (∀ m1 m2 : Str, PyError.valueError m1 ≠ PyError.hfDownloadError m2) := by
  have hneeds : needs_download_calc hash (fs.makedirs (targetDirOf root repo_id))
      (targetPathOf root repo_id (pyStrip (pyOrDefault save_as filename)))
      force_download (normExpected expected_sha256) = true := by
    simp [needs_download_calc, FS.existsFile_makedirs, hmiss]
  refine ⟨?_, ?_, ?_⟩
  · intro downloader exc fs2 hdl
    simp only [ensure_hf_lora_file, if_neg hr, if_neg hf, hroot, hneeds, if_true]
    rw [hdl]
  · intro downloader fs2 c hdl hwrote hexp hmm
    simp only [ensure_hf_lora_file, if_neg hr, if_neg hf, hroot, hneeds, if_true]
    rw [hdl]
    simp only [ne_eq, not_true_eq_false, if_false, ite_self]
    simp [hexp, _checksum_matches, hwrote, hmm]
  · intro m1 m2 h
    exact PyError.noConfusion h

/-- Witness for C6: a failing transport surfaces as the wrapped
`HuggingFaceDownloadError` naming repo and filename. -/
theorem C6_error_taxonomy_witness :
    pyStrip demoRepo ≠ [] ∧
    ensure_hf_lora_file (fun _ => []) none none none demoRepo demoFile
        none none none false true none (some demoRoot)
        (fun fs _ => (fs, .error (String.toList "boom"))) ⟨[], []⟩ =
      ((⟨[], []⟩ : FS).makedirs demoDir, [demoKwargs],
       .error (.hfDownloadError
         (msgDownloadFailed demoFile demoRepo (String.toList "boom")))) :=
  ⟨by decide,
    (C6_error_taxonomy (fun _ => []) none none none demoRepo demoFile
      none none none false true none (some demoRoot) ⟨[], []⟩ demoRoot
      (by decide) (by decide) rfl (by decide)).1
      (fun fs _ => (fs, .error (String.toList "boom"))) (String.toList "boom")
      ((⟨[], []⟩ : FS).makedirs demoDir) rfl⟩

/-- C10 (implicit): when the post-download checksum verification fails, the
downloaded file has already been written (or copied) to the target cache path
and is not deleted or rolled back — after the checksum-mismatch `ValueError`
the mismatching content is still readable at the target path. -/
theorem C10_mismatching_file_remains (hash : Content → Str)
    (folderPathsLoras : Option (List FPath)) (envHfToken envHuggingfaceToken : Option Str)
    (repo_id filename : Str) (revision save_as token : Option Str)
    (force_download resume_download : Bool) (expected_sha256 : Option Str)
    (lora_root : Option FPath) (downloader : Downloader) (fs fs2 : FS)
    (c : Content) (p root : FPath)
    (hr : pyStrip repo_id ≠ []) (hf : pyStrip filename ≠ [])
    (hroot : _default_lora_root folderPathsLoras lora_root = .ok root)
    (hmiss : fs.existsFile
        (targetPathOf root repo_id (pyStrip (pyOrDefault save_as filename))) = false)
    (hdl : downloader (fs.makedirs (targetDirOf root repo_id))
        (mkDownloadKwargs repo_id filename revision token envHfToken envHuggingfaceToken
          (targetDirOf root repo_id) force_download resume_download) = (fs2, .ok p))
    (hwrote : fs2.read p = some c)
    (hexp : normExpected expected_sha256 ≠ [])
    (hmm : pyLower (hash c) ≠ pyLower (normExpected expected_sha256)) :
    (ensure_hf_lora_file hash folderPathsLoras envHfToken envHuggingfaceToken
        repo_id filename revision save_as token force_download resume_download
        expected_sha256 lora_root downloader fs).2.2 =
      .error (.valueError msgChecksumMismatch) ∧
    (ensure_hf_lora_file hash folderPathsLoras envHfToken envHuggingfaceToken
        repo_id filename revision save_as token force_download resume_download
        expected_sha256 lora_root downloader fs).1.read
      (targetPathOf root repo_id (pyStrip (pyOrDefault save_as filename))) = some c := by
  have hneeds : needs_download_calc hash (fs.makedirs (targetDirOf root repo_id))
      (targetPathOf root repo_id (pyStrip (pyOrDefault save_as filename)))
      force_download (normExpected expected_sha256) = true := by
    simp [needs_download_calc, FS.existsFile_makedirs, hmiss]
  by_cases hpt : p = targetPathOf root repo_id (pyStrip (pyOrDefault save_as filename))
  · subst hpt
    have heval : ensure_hf_lora_file hash folderPathsLoras envHfToken envHuggingfaceToken
        repo_id filename revision save_as token force_download resume_download
        expected_sha256 lora_root downloader fs =
        (fs2,
         [mkDownloadKwargs repo_id filename revision token envHfToken envHuggingfaceToken
           (targetDirOf root repo_id) force_download resume_download],
         .error (.valueError msgChecksumMismatch)) := by
      simp only [ensure_hf_lora_file, if_neg hr, if_neg hf, hroot, hneeds, if_true]
      rw [hdl]
      simp only [ne_eq, not_true_eq_false, if_false, ite_self]
      simp [hexp, _checksum_matches, hwrote, hmm]
    exact ⟨by rw [heval], by rw [heval]; exact hwrote⟩
  · have heval : ensure_hf_lora_file hash folderPathsLoras envHfToken envHuggingfaceToken
        repo_id filename revision save_as token force_download resume_download
        expected_sha256 lora_root downloader fs =
        (fs2.write (targetPathOf root repo_id (pyStrip (pyOrDefault save_as filename))) c,
         [mkDownloadKwargs repo_id filename revision token envHfToken envHuggingfaceToken
           (targetDirOf root repo_id) force_download resume_download],
         .error (.valueError msgChecksumMismatch)) := by
      simp only [ensure_hf_lora_file, if_neg hr, if_neg hf, hroot, hneeds, if_true]
      rw [hdl]
      simp [hpt, FS.copy2, hwrote, hexp, _checksum_matches, FS.read_write, hmm]
    exact ⟨by rw [heval], by rw [heval]; exact FS.read_write fs2 _ c⟩

/-- Witness for C10: a downloader that writes non-matching content next to the
target leaves that content at the target path after the mismatch error. -/
theorem C10_mismatching_file_remains_witness :
    pyLower ((fun _ => String.toList "aa") demoBytes)
      ≠ pyLower (normExpected (some (String.toList "bb"))) ∧
    (ensure_hf_lora_file (fun _ => String.toList "aa") none none none demoRepo demoFile
        none none none false true (some (String.toList "bb")) (some demoRoot)
        demoDownloader ⟨[], []⟩).2.2 = .error (.valueError msgChecksumMismatch) ∧
    (ensure_hf_lora_file (fun _ => String.toList "aa") none none none demoRepo demoFile
        none none none false true (some (String.toList "bb")) (some demoRoot)
        demoDownloader ⟨[], []⟩).1.read
      (targetPathOf demoRoot demoRepo (pyStrip (pyOrDefault none demoFile))) =
        some demoBytes :=
  ⟨by decide,
    (C10_mismatching_file_remains (fun _ => String.toList "aa") none none none
      demoRepo demoFile none none none false true (some (String.toList "bb"))
      (some demoRoot) demoDownloader ⟨[], []⟩
      ((FS.makedirs ⟨[], []⟩ demoDir).write demoTarget demoBytes) demoBytes
      demoTarget demoRoot (by decide) (by decide) rfl (by decide) rfl rfl
      (by decide) (by decide)).1,
    (C10_mismatching_file_remains (fun _ => String.toList "aa") none none none
      demoRepo demoFile none none none false true (some (String.toList "bb"))
      (some demoRoot) demoDownloader ⟨[], []⟩
      ((FS.makedirs ⟨[], []⟩ demoDir).write demoTarget demoBytes) demoBytes
      demoTarget demoRoot (by decide) (by decide) rfl (by decide) rfl rfl
      (by decide) (by decide)).2⟩

/-- Witness for C5: in the spec's concrete scenario the first call downloads
and returns the relative path; the repeated call returns the same value,
leaves the filesystem untouched and makes zero downloader invocations. -/
theorem C5_second_call_idempotent_witness :
    (ensure_hf_lora_file (fun _ => []) none none none demoRepo demoFile
        none none none false true none (some demoRoot) demoDownloader ⟨[], []⟩ =
      (demoFS1, [demoKwargs], .ok demoRel)) ∧
    ensure_hf_lora_file (fun _ => []) none none none demoRepo demoFile
        none none none false true none (some demoRoot) demoDownloader demoFS1 =
      (demoFS1, [], .ok demoRel) := by
  refine ⟨rfl, ?_⟩
  exact C5_second_call_idempotent (fun _ => []) none none none demoRepo demoFile
    none none none true none (some demoRoot) demoDownloader ⟨[], []⟩ demoFS1
    [demoKwargs] demoRel demoBytes demoRoot (by decide) (by decide) rfl
    rfl (by decide) (by decide) (fun h => absurd rfl h)

end HfLora
